import Mathlib

/-!
Verification development for the libfilezilla networking core:
the hierarchical token-bucket rate limiter (src/lib/rate_limiter.cpp),
the rate-limited socket layer (src/lib/rate_limited_layer.cpp) and the
socket connection state machine (src/lib/socket.cpp).

`rate::type` is `size_t` (64-bit unsigned); values are modelled as `Nat`.
All subtractions in the modelled code paths are guarded in the C++ so that
they never go below zero, hence truncated `Nat` subtraction agrees with the
machine arithmetic; sums and products in the modelled paths stay far below
2^64 for the inputs the theorems quantify over, so no wrap-around modelling
is needed.  `rate::unlimited` is `SIZE_MAX = 2^64 - 1`.

Per-direction state: the C++ keeps two-element arrays indexed by
`direction::type d`; the two directions are fully independent (every
function reads and writes only index `d`), so the embedding models the
state of one direction.
-/

namespace LibFZ

/-- rate::unlimited = static_cast<size_t>(-1)  (rate_limiter.hpp). -/
def unlimited : Nat := 2 ^ 64 - 1

/-- int const frequency = 5;   (rate_limiter.cpp line 21). -/
def frequency : Nat := 5

/-- Leaf bucket state for one direction `d`
(fields of `class bucket`, rate_limiter.hpp). `mgr` models whether
`mgr_` is non-null. -/
structure Bucket where
  available_ : Nat := unlimited
  overflow_multiplier_ : Nat := 1
  bucket_size_ : Nat := unlimited
  waiting_ : Bool := false
  unsaturated_ : Bool := false
  mgr : Bool := true
  deriving Repr, DecidableEq

/-- `bucket::unsaturated(d)` accessor: `unsaturated_[d] ? 1 : 0`. -/
def Bucket.unsaturated (b : Bucket) : Nat :=
  if b.unsaturated_ then 1 else 0

/-- `bucket::add_tokens(d, tokens, limit)` (rate_limiter.cpp lines 446-479).
Returns (overflow returned to the caller, new bucket state). -/
def Bucket.add_tokens (b : Bucket) (tokens limit : Nat) : Nat × Bucket :=
  if limit = unlimited then
    (0, { b with bucket_size_ := unlimited, available_ := unlimited })
  else
    let bucket_size := limit * b.overflow_multiplier_
    if b.available_ = unlimited then
      (0, { b with bucket_size_ := bucket_size, available_ := tokens })
    else if bucket_size < b.available_ then
      (tokens, { b with bucket_size_ := bucket_size, available_ := bucket_size })
    else
      let capacity := bucket_size - b.available_
      if capacity < tokens ∧ b.unsaturated_ then
        if b.overflow_multiplier_ < 1024 * 1024 then
          let capacity := capacity + bucket_size
          let bucket_size := bucket_size * 2
          let added := min tokens capacity
          (tokens - added,
           { b with bucket_size_ := bucket_size,
                    overflow_multiplier_ := b.overflow_multiplier_ * 2,
                    unsaturated_ := false,
                    available_ := b.available_ + added })
        else
          let added := min tokens capacity
          (tokens - added,
           { b with bucket_size_ := bucket_size,
                    unsaturated_ := false,
                    available_ := b.available_ + added })
      else
        let added := min tokens capacity
        (tokens - added,
         { b with bucket_size_ := bucket_size,
                  available_ := b.available_ + added })

/-- `bucket::distribute_overflow(d, tokens)` (rate_limiter.cpp lines 481-500).
Returns (overflow returned to the caller, new bucket state). -/
def Bucket.distribute_overflow (b : Bucket) (tokens : Nat) : Nat × Bucket :=
  if b.available_ = unlimited then
    (0, b)
  else
    let capacity := b.bucket_size_ - b.available_
    if capacity < tokens ∧ b.unsaturated_ then
      if b.overflow_multiplier_ < 1024 * 1024 then
        let capacity := capacity + b.bucket_size_
        let added := min tokens capacity
        (tokens - added,
         { b with bucket_size_ := b.bucket_size_ * 2,
                  overflow_multiplier_ := b.overflow_multiplier_ * 2,
                  unsaturated_ := false,
                  available_ := b.available_ + added })
      else
        let added := min tokens capacity
        (tokens - added,
         { b with unsaturated_ := false,
                  available_ := b.available_ + added })
    else
      let added := min tokens capacity
      (tokens - added, { b with available_ := b.available_ + added })

/-- `bucket::update_stats(active)` (rate_limiter.cpp lines 513-531).
Returns (new bucket state, new value of `active`). -/
def Bucket.update_stats (b : Bucket) (active : Bool) : Bucket × Bool :=
  if b.bucket_size_ = unlimited then
    ({ b with overflow_multiplier_ := 1 }, active)
  else if b.bucket_size_ / 2 < b.available_ ∧ 1 < b.overflow_multiplier_ then
    ({ b with overflow_multiplier_ := b.overflow_multiplier_ / 2 }, active)
  else
    ({ b with unsaturated_ := b.waiting_ }, active || b.waiting_)

/-- `bucket::available(d)` (rate_limiter.cpp lines 533-547).
Returns (returned byte budget, new bucket state, whether
`mgr_->record_activity()` was called). -/
def Bucket.availableOp (b : Bucket) : Nat × Bucket × Bool :=
  if b.available_ = 0 then
    (0, { b with waiting_ := true }, b.mgr)
  else
    (b.available_, b, false)

/-- `bucket::consume(d, amount)` (rate_limiter.cpp lines 549-569).
Returns (new bucket state, whether `mgr_->record_activity()` was called). -/
def Bucket.consume (b : Bucket) (amount : Nat) : Bucket × Bool :=
  if amount = 0 then
    (b, false)
  else if b.available_ = unlimited then
    (b, false)
  else if amount < b.available_ then
    ({ b with available_ := b.available_ - amount }, b.mgr)
  else
    ({ b with available_ := 0 }, b.mgr)

/-- `bucket::unlock_tree()` wakeup rule for one direction
(rate_limiter.cpp lines 502-511): a waiting bucket whose budget became
positive clears `waiting_` and invokes `wakeup(d)`.
Returns (new bucket state, whether `wakeup` was invoked). -/
def Bucket.unlock_tree (b : Bucket) : Bucket × Bool :=
  if b.waiting_ ∧ b.available_ ≠ 0 then
    ({ b with waiting_ := false }, true)
  else
    (b, false)

instance : Inhabited Bucket := ⟨{}⟩

/-- Interior limiter state for one direction `d`
(fields of `class rate_limiter`, rate_limiter.hpp); children specialised to
leaf buckets (the tree of the analysed claims). `scratch_buffer_` holds
indices into `buckets_`. -/
structure Limiter where
  limit_ : Nat := unlimited
  weight_ : Nat := 0
  unsaturated_ : Nat := 0
  overflow_ : Nat := 0
  merged_tokens_ : Nat := 0
  debt_ : Nat := 0
  unused_capacity_ : Nat := 0
  carry_ : Nat := 0
  buckets_ : List Bucket := []
  scratch_buffer_ : List Nat := []
  deriving Repr, DecidableEq, Inhabited

/-- `rate_limiter::pay_debt(d)` (rate_limiter.cpp lines 282-293). -/
def Limiter.pay_debt (L : Limiter) : Limiter :=
  if L.merged_tokens_ ≠ unlimited then
    let weight := if L.weight_ = 0 then 1 else L.weight_
    let debt_reduction := min L.merged_tokens_ (L.debt_ / weight)
    { L with merged_tokens_ := L.merged_tokens_ - debt_reduction,
             debt_ := L.debt_ - debt_reduction }
  else
    { L with debt_ := 0 }

/-- The inner removal loop of `rate_limiter::distribute_overflow`
(rate_limiter.cpp lines 396-406), structurally recursive on the exact
number `n = scratch.length - i` of entries still to process (each step
either advances `i` or removes one entry, so `n` drops by one either way
and reaches 0 exactly when `i` passes the end; `innerPass` below supplies
the exact count).  Each scratch entry's bucket is handed `extra` tokens;
an entry whose bucket returns overflow is swap-removed (replaced by the
last entry, which is then itself processed) and its overflow added to
`remaining`. -/
def innerPassAux (extra : Nat) :
    Nat → List Bucket → List Nat → Nat → Nat → List Bucket × List Nat × Nat
  | 0, buckets, scratch, _, remaining => (buckets, scratch, remaining)
  | n + 1, buckets, scratch, i, remaining =>
    if h : i < scratch.length then
      -- sub_overflow = buckets_[scratch_buffer_[i]]->distribute_overflow(d, extra_tokens)
      -- scratch_buffer_[i] = scratch_buffer_.back(); scratch_buffer_.pop_back();
      if ((buckets.getD (scratch.get ⟨i, h⟩) default).distribute_overflow extra).1 ≠ 0 then
        innerPassAux extra n
          (buckets.set (scratch.get ⟨i, h⟩)
            ((buckets.getD (scratch.get ⟨i, h⟩) default).distribute_overflow extra).2)
          ((scratch.set i (scratch.getD (scratch.length - 1) 0)).dropLast) i
          (remaining + ((buckets.getD (scratch.get ⟨i, h⟩) default).distribute_overflow extra).1)
      else
        innerPassAux extra n
          (buckets.set (scratch.get ⟨i, h⟩)
            ((buckets.getD (scratch.get ⟨i, h⟩) default).distribute_overflow extra).2)
          scratch (i + 1) remaining
    else
      (buckets, scratch, remaining)

/-- `for (size_t i = 0; i < scratch_buffer_.size(); )` of
`rate_limiter::distribute_overflow` from position `i` on
(rate_limiter.cpp lines 396-406). Returns (buckets, scratch, remaining). -/
def innerPass (buckets : List Bucket) (extra : Nat) (scratch : List Nat)
    (i : Nat) (remaining : Nat) : List Bucket × List Nat × Nat :=
  innerPassAux extra (scratch.length - i) buckets scratch i remaining

/-- `size_t size{}; for (auto idx : scratch_buffer_) size += buckets_[idx]->unsaturated(d);`
(rate_limiter.cpp lines 384-387). -/
def scratchUnsat (buckets : List Bucket) (scratch : List Nat) : Nat :=
  scratch.foldl (fun s idx => s + (buckets.getD idx default).unsaturated) 0

/-- The `while (true)` loop of `rate_limiter::distribute_overflow`
(rate_limiter.cpp lines 383-410), run with explicit fuel.  Returns
(((buckets, scratch, remaining), size, divZero), exited):
`size` is the value the loop last assigned to `unsaturated_[d]`;
`divZero` records whether the C++ executed the division `remaining / size`
(line 394) with `size == 0` — undefined behaviour there; Lean's `Nat`
division by zero yields 0, letting the model continue and the flag record
the event; `exited` is true when the loop left through one of its `break`
statements within the given fuel (so the unbounded C++ loop finishes in the
same state) and false when the fuel ran out first — every theorem below
about a run of the loop asserts or proves `exited = true`. -/
def outerLoop :
    Nat → List Bucket → List Nat → Nat → Bool →
      ((List Bucket × List Nat × Nat) × Nat × Bool) × Bool
  | 0, buckets, scratch, remaining, divZero =>
    (((buckets, scratch, remaining), scratchUnsat buckets scratch, divZero), false)
  | n + 1, buckets, scratch, remaining, divZero =>
    if remaining = 0 ∨ scratch = [] then
      (((buckets, scratch, remaining), scratchUnsat buckets scratch, divZero), true)
    else
      -- extra_tokens = remaining / size;  remaining %= size;
      if remaining / scratchUnsat buckets scratch = 0 then
        ((innerPass buckets (remaining / scratchUnsat buckets scratch) scratch 0
            (remaining % scratchUnsat buckets scratch),
          scratchUnsat buckets scratch,
          divZero || decide (scratchUnsat buckets scratch = 0)), true)
      else
        outerLoop n
          (innerPass buckets (remaining / scratchUnsat buckets scratch) scratch 0
            (remaining % scratchUnsat buckets scratch)).1
          (innerPass buckets (remaining / scratchUnsat buckets scratch) scratch 0
            (remaining % scratchUnsat buckets scratch)).2.1
          (innerPass buckets (remaining / scratchUnsat buckets scratch) scratch 0
            (remaining % scratchUnsat buckets scratch)).2.2
          (divZero || decide (scratchUnsat buckets scratch = 0))

/-- The child loop of `rate_limiter::add_tokens` (rate_limiter.cpp lines
341-354): every bucket receives `merged_tokens_[d]` tokens under
`merged_limit`; overflow is accumulated; buckets reporting `unsaturated(d)`
are recorded (by index) in the scratch buffer, the others are offered
`distribute_overflow(d, 0)`.  `i` is the index of the first list element.
Returns (buckets, accumulated overflow, scratch indices). -/
def addTokensLoop (merged_tokens merged_limit : Nat) :
    List Bucket → Nat → List Bucket × Nat × List Nat
  | [], _ => ([], 0, [])
  | b :: rest, i =>
    let r := b.add_tokens merged_tokens merged_limit
    let step :=
      if r.2.unsaturated_ then (r.2, r.1, [i])
      else
        let r2 := r.2.distribute_overflow 0
        (r2.2, r.1 + r2.1, [])
    let tail := addTokensLoop merged_tokens merged_limit rest (i + 1)
    (step.1 :: tail.1, step.2.1 + tail.2.1, step.2.2 ++ tail.2.2)

/-- `rate_limiter::add_tokens(d, tokens, limit)` (rate_limiter.cpp lines
295-368).  Returns (overflow returned to the caller, new limiter state). -/
def Limiter.add_tokens (L : Limiter) (tokens limit : Nat) : Nat × Limiter :=
  if L.weight_ = 0 then
    -- lines 297-301
    let L' := Limiter.pay_debt { L with merged_tokens_ := min L.limit_ tokens }
    (if tokens = unlimited then 0 else tokens, L')
  else
    -- lines 303-311: carry arithmetic
    let merged_limit :=
      if L.limit_ ≠ unlimited then
        min ((L.carry_ + L.limit_) / L.weight_) limit
      else limit
    let carry :=
      if L.limit_ ≠ unlimited then
        (L.carry_ + L.limit_) % L.weight_ + (merged_limit % frequency) * L.weight_
      else L.carry_
    -- lines 313-324
    let merged_tokens :=
      if merged_limit ≠ unlimited then merged_limit / frequency else unlimited
    let merged_tokens := if tokens < merged_tokens then tokens else merged_tokens
    -- line 326: pay_debt(d)
    let L' := Limiter.pay_debt
      { L with carry_ := carry, unused_capacity_ := 0, merged_tokens_ := merged_tokens }
    -- lines 328-339
    let unused_capacity :=
      if L'.limit_ = unlimited then unlimited
      else if L'.merged_tokens_ * L'.weight_ * frequency < L'.limit_ then
        (L'.limit_ - L'.merged_tokens_ * L'.weight_ * frequency) / frequency
      else 0
    -- lines 341-354: child loop
    let loop := addTokensLoop L'.merged_tokens_ merged_limit L'.buckets_ 0
    -- lines 355-360
    let unused_capacity :=
      if loop.2.1 ≥ unused_capacity then 0
      else if unused_capacity ≠ unlimited then unused_capacity - loop.2.1
      else unused_capacity
    let L' := { L' with unused_capacity_ := unused_capacity, overflow_ := loop.2.1,
                        buckets_ := loop.1, scratch_buffer_ := loop.2.2 }
    -- lines 362-367
    (if tokens = unlimited then 0 else (tokens - L'.merged_tokens_) * L'.weight_, L')

/-- `rate_limiter::distribute_overflow(d, overflow)` (rate_limiter.cpp lines
371-423).  Returns (overflow returned to the caller, new limiter state,
whether the loop executed a division by zero, whether the loop exited
through a `break` — see `outerLoop`; the fuel passed is ample for every run
appearing in the theorems, all of which assert or prove the exit flag). -/
def Limiter.distribute_overflow (L : Limiter) (overflow : Nat) : Nat × Limiter × Bool × Bool :=
  let usable_external_overflow :=
    if L.unused_capacity_ = unlimited then overflow
    else min overflow L.unused_capacity_
  let loop := outerLoop (L.overflow_ + usable_external_overflow + L.scratch_buffer_.length + 2)
    L.buckets_ L.scratch_buffer_ (L.overflow_ + usable_external_overflow) false
  let remaining := loop.1.1.2.2
  if usable_external_overflow > remaining then
    -- lines 412-417: exhausted internal overflow
    (remaining + overflow - usable_external_overflow,
     { L with unused_capacity_ := L.unused_capacity_ - (usable_external_overflow - remaining),
              overflow_ := 0,
              unsaturated_ := loop.1.2.1,
              buckets_ := loop.1.1.1, scratch_buffer_ := loop.1.1.2.1 },
     loop.1.2.2, loop.2)
  else
    -- lines 418-422: internal overflow not exhausted
    (overflow,
     { L with overflow_ := remaining - usable_external_overflow,
              unsaturated_ := loop.1.2.1,
              buckets_ := loop.1.1.1, scratch_buffer_ := loop.1.1.2.1 },
     loop.1.2.2, loop.2)

/-- The child loop of `rate_limiter::update_stats` (rate_limiter.cpp lines
431-437): recompute each bucket's stats, sum the weights (a leaf bucket's
`weight()` is 1) and the `unsaturated(d)` counts. -/
def updateStatsLoop : List Bucket → Bool → List Bucket × Nat × Nat × Bool
  | [], active => ([], 0, 0, active)
  | b :: rest, active =>
    let r := b.update_stats active
    let tail := updateStatsLoop rest r.2
    (r.1 :: tail.1, 1 + tail.2.1, r.1.unsaturated + tail.2.2.1, tail.2.2.2)

/-- `rate_limiter::update_stats(active)` (rate_limiter.cpp lines 425-438). -/
def Limiter.update_stats (L : Limiter) (active : Bool) : Limiter × Bool :=
  let loop := updateStatsLoop L.buckets_ active
  ({ L with buckets_ := loop.1, weight_ := loop.2.1, unsaturated_ := loop.2.2.1 },
   loop.2.2.2)

/-- `rate_limiter::add(bucket)` attaching a (detached) leaf bucket
(rate_limiter.cpp lines 218-264), one direction.  The C++ pushes the bucket
into `buckets_` and then mutates it through the stored pointer; the model
applies the mutations first and appends the final state.  Returns
(new limiter state, whether `update_stats` reported the tree active —
line 237 then calls `mgr_->record_activity()`). -/
def Limiter.add (L : Limiter) (b : Bucket) : Limiter × Bool :=
  let r := b.update_stats false
  -- lines 241-245: bucket_weight = bucket->weight(), 1 for a leaf; weight_ += bucket_weight
  let bucket_weight := 1
  -- lines 247-261, for direction d
  let tokens :=
    if L.merged_tokens_ = unlimited then unlimited
    else L.merged_tokens_ / (bucket_weight * 2)
  let b1 := (Bucket.add_tokens r.1 tokens tokens).2
  let b2 := (Bucket.distribute_overflow b1 0).2
  let debt := if tokens ≠ unlimited then L.debt_ + tokens * bucket_weight else L.debt_
  -- line 263: bucket->unlock_tree() may deliver a wakeup and clear waiting_
  let b3 := (Bucket.unlock_tree b2).1
  ({ L with weight_ := L.weight_ + bucket_weight, debt_ := debt,
            buckets_ := L.buckets_ ++ [b3] }, r.2)

/-- `rate_limiter::unlock_tree()` (rate_limiter.cpp lines 274-280) combined
with `bucket::unlock_tree()` (lines 502-511), one direction: waiting buckets
whose budget became positive are woken and cleared. -/
def Limiter.unlock_tree (L : Limiter) : Limiter :=
  { L with buckets_ := L.buckets_.map (fun b => (Bucket.unlock_tree b).1) }

/-- `rate_limit_manager::process(limiter, locked)` for one direction
(rate_limiter.cpp lines 86-115): update the stats, add the per-tick
tokens with `add_tokens(d, unlimited, unlimited)`, distribute the overflow
with `distribute_overflow(d, 0)`, then unlock (waking consumers).  Returns
(new limiter state, whether `record_activity` was called, divZero flag of
the redistribution loop, exit flag of the redistribution loop). -/
def Limiter.process (L : Limiter) : Limiter × Bool × Bool × Bool :=
  let s := L.update_stats false
  let a := (s.1).add_tokens unlimited unlimited
  let o := (a.2).distribute_overflow 0
  ((o.2.1).unlock_tree, s.2, o.2.2)

/-- `rate_limiter::do_set_limit(d, limit)` (rate_limiter.cpp lines 197-210),
one direction (the body of `set_limits`). -/
def Limiter.set_limit (L : Limiter) (limit : Nat) : Limiter :=
  if L.limit_ = limit then L
  else
    let weight := if L.weight_ = 0 then 1 else L.weight_
    if limit ≠ unlimited then
      { L with limit_ := limit, merged_tokens_ := min L.merged_tokens_ (limit / weight) }
    else
      { L with limit_ := limit }

/-- Application-side `bucket::consume` on the bucket at index `i` of an
attached tree (what the rate-limited layer does after a successful
transfer). -/
def Limiter.consumeAt (L : Limiter) (i amount : Nat) : Limiter :=
  { L with buckets_ := L.buckets_.set i ((L.buckets_.getD i default).consume amount).1 }

/-- Application-side `bucket::available` on the bucket at index `i` (what the
rate-limited layer does before a transfer; a zero budget marks the bucket
waiting). -/
def Limiter.pollAt (L : Limiter) (i : Nat) : Limiter :=
  { L with buckets_ := L.buckets_.set i ((L.buckets_.getD i default).availableOp).2.1 }

/-- A greedy consumer on bucket `i`: read everything `available` grants,
then poll again, observing a zero budget (which sets `waiting_`). -/
def Limiter.drainPoll (L : Limiter) (i : Nat) : Limiter :=
  (L.consumeAt i (L.buckets_.getD i default).available_).pollAt i

/-! ### Rate-limited socket layer (src/lib/rate_limited_layer.cpp) -/

/-- POSIX EAGAIN. -/
def EAGAIN : Int := 11

/-- `rate_limited_layer::read(buffer, size, error)` (rate_limited_layer.cpp
lines 34-53), inbound direction.  The next layer is modelled as a function
from the (possibly truncated) size to (return value, error out-parameter).
Returns (return value, error, bucket state after, whether
`next_layer_.read` ran). -/
def rate_limited_layer.read (b : Bucket) (size : Nat) (next_read : Nat → Int × Int) :
    Int × Int × Bucket × Bool :=
  let avail := b.availableOp
  if avail.1 = 0 then
    (-1, EAGAIN, avail.2.1, false)
  else
    let size := if avail.1 < size then avail.1 else size
    let r := next_read size
    if 0 < r.1 ∧ avail.1 ≠ unlimited then
      (r.1, r.2, (avail.2.1.consume r.1.toNat).1, true)
    else
      (r.1, r.2, avail.2.1, true)

/-! ### Socket connection state machine (src/lib/socket.cpp) -/

/-- `enum class socket_state` (socket.hpp; used throughout socket.cpp). -/
inductive SocketState
  | none | connecting | connected | shut_down | closed | failed | listening
  deriving Repr, DecidableEq

/-- `enum class address_type` {unknown, ipv4, ipv6}. -/
inductive AddressType
  | unknown | ipv4 | ipv6
  deriving Repr, DecidableEq

/-- POSIX EINVAL. -/
def EINVAL : Int := 22

/-- POSIX EISCONN. -/
def EISCONN : Int := 106

/-- Result of `socket::connect`: return value, resulting state, whether the
call delegated to the reactor thread (`socket_thread_->connect`), and the
stored parameters. -/
structure ConnectOutcome where
  ret : Int
  state : SocketState
  delegated : Bool
  stored_host : Option String
  stored_port : Option Nat
  stored_family : Option AddressType
  deriving Repr, DecidableEq

/-- `socket::connect(host, port, family)` (socket.cpp lines 1644-1687).
`thread_res` is the value returned by `socket_thread_->connect` when it is
reached (the delegation to the reactor). -/
def socket.connect (state : SocketState) (host : String) (port : Nat)
    (family : AddressType) (thread_res : Int) : ConnectOutcome :=
  if state ≠ SocketState.none then
    ⟨EISCONN, state, false, Option.none, Option.none, Option.none⟩
  else if port < 1 ∨ port > 65535 then
    ⟨EINVAL, state, false, Option.none, Option.none, Option.none⟩
  else if host = "" then
    ⟨EINVAL, state, false, Option.none, Option.none, Option.none⟩
  else if thread_res ≠ 0 then
    -- line 1679-1682: res != 0 ⇒ state_ = failed
    ⟨thread_res, SocketState.failed, true, some host, some port, some family⟩
  else
    ⟨0, SocketState.connecting, true, some host, some port, some family⟩

/-- Reactor-thread bits of a streaming socket relevant to shutdown and
retrigger: the state, and the WAIT_READ / WAIT_WRITE bits of the
`waiting_` and `triggered_` masks (socket.cpp lines 53-55). -/
structure SockTh where
  state : SocketState
  wait_read : Bool
  wait_write : Bool
  trig_read : Bool
  trig_write : Bool
  deriving Repr, DecidableEq

/-- `socket_event_flag`. -/
inductive EvFlag
  | connection | connection_next | read | write
  deriving Repr, DecidableEq

/-- `socket::shutdown()` (socket.cpp lines 1885-1904).  `os_res` is the
result of the OS-level `::shutdown(fd_, SHUT_WR)` (0 on success, else the
translated `last_socket_error()`). -/
def socket.shutdown (s : SockTh) (os_res : Int) : Int × SockTh :=
  if os_res ≠ 0 then
    (os_res, s)
  else
    (0, { s with
            state := if s.state = SocketState.connected then SocketState.shut_down
                     else s.state,
            wait_write := false,    -- waiting_ &= ~WAIT_WRITE
            trig_write := false })  -- triggered_ &= ~WAIT_WRITE

/-- `socket::retrigger(event)` (socket.cpp lines 1858-1883).  `has_handler`
models `evt_handler_ != nullptr`; `pending` models
`has_pending_event(evt_handler_, this, event)`.  Returns whether a
synthetic `socket_event` is sent. -/
def socket.retrigger (s : SockTh) (ev : EvFlag) (has_handler pending : Bool) : Bool :=
  if ev ≠ EvFlag.read ∧ ev ≠ EvFlag.write then false
  else if s.state ≠ SocketState.connected ∧
      (s.state ≠ SocketState.shut_down ∨ ev = EvFlag.write) then false
  else if ¬has_handler ∨ pending then false
  else if ev = EvFlag.read then !s.wait_read else !s.wait_write

/-! ### Rate-limit manager activity handshake (src/lib/rate_limiter.cpp) -/

/-- Manager state relevant to the timer handshake: the atomic `activity_`
counter (initialised to 2, rate_limiter.hpp) and whether a refill timer is
armed (`timer_ != 0`). -/
structure MgrSt where
  activity : Nat
  timer_armed : Bool
  deriving Repr, DecidableEq

/-- Initial manager state: `std::atomic<int> activity_{2};`,
`std::atomic<timer_id> timer_{};` (rate_limiter.hpp). -/
def MgrSt.init : MgrSt := ⟨2, false⟩

/-- The timer bookkeeping of `rate_limit_manager::on_timer` (rate_limiter.cpp
lines 41-54): `++activity_`; when it reaches 2, the timer is exchanged away
and stopped. -/
def MgrSt.on_timer (s : MgrSt) : MgrSt :=
  { activity := s.activity + 1,
    timer_armed := if s.activity + 1 = 2 then false else s.timer_armed }

/-- `rate_limit_manager::record_activity()` (rate_limiter.cpp lines 56-62):
`activity_.exchange(0)`; if the prior value was 2, a fresh timer is armed
(and the previous timer id, necessarily 0 here, stopped). -/
def MgrSt.record_activity (s : MgrSt) : MgrSt :=
  { activity := 0,
    timer_armed := if s.activity = 2 then true else s.timer_armed }

/-- Events of the manager timer state machine. -/
inductive MgrEvent
  | tick | activityEv
  deriving Repr, DecidableEq

/-- One step of the manager timer state machine: a `tick` (delivery of
`timer_event` to `on_timer`) requires an armed timer; `activityEv` is a call
to `record_activity` from a bucket with waiters or a limiter whose limits
changed. -/
def MgrStep (s : MgrSt) : MgrEvent → MgrSt → Prop
  | MgrEvent.tick, s' => s.timer_armed = true ∧ s' = s.on_timer
  | MgrEvent.activityEv, s' => s' = s.record_activity

/-- A possible run of the manager state machine: `MgrTrace s evs` holds when
the events of `evs` can fire in order starting from `s`. -/
inductive MgrTrace : MgrSt → List MgrEvent → Prop
  | nil (s : MgrSt) : MgrTrace s []
  | cons {s s' : MgrSt} {e : MgrEvent} {evs : List MgrEvent} :
      MgrStep s e s' → MgrTrace s' evs → MgrTrace s (e :: evs)

/-- States the manager handshake can actually be in: the counter never
exceeds 2, and a dormant counter (= 2) implies a stopped timer. -/
def MgrInv (s : MgrSt) : Prop :=
  s.activity ≤ 2 ∧ (s.activity = 2 → s.timer_armed = false)

/-! ### C10: the redistribution loop can divide by zero

A concrete run through the public API.  A limiter with download limit
130 B/s gets 13 fresh buckets attached (before the first tick, so no debt is
incurred).  Buckets 11 and 12 belong to greedy consumers: after every tick
they read their whole budget and poll again, observing a zero budget (which
sets `waiting_`); buckets 0-10 are never read, so they silently fill up.
After five ticks buckets 0-10 are full (available_ = bucket_size_ = 10).
The application then lowers the limit to 65 B/s.  On the next tick the
eleven full buckets are clamped and return their full per-tick grant
(11 tokens of overflow) while buckets 11 and 12 are unsaturated
(scratch_buffer_ = [11, 12]).  `distribute_overflow` computes
`extra_tokens = 11 / 2 = 5`, `remaining = 1`; both buckets have capacity
4 < 5, so both clear their `unsaturated_` flag, double, absorb the 5 tokens
fully and stay in `scratch_buffer_`.  The loop then recomputes
`size = 0` with `remaining = 1` and a non-empty `scratch_buffer_`, and
executes `remaining / size` — a division by zero. -/

/-- The limiter after `rate_limiter::add` of 13 fresh buckets, download
limit 130 B/s. -/
def c10Attached : Limiter :=
  (List.range 13).foldl (fun L _ => (Limiter.add L {}).1) { limit_ := 130 }

/-- One refill tick followed by the two greedy consumers draining buckets
11 and 12; the Bool accumulates that every redistribution loop so far left
through a `break` (so the fueled model tracked the C++ exactly). -/
def c10Tick (p : Limiter × Bool) : Limiter × Bool :=
  (((p.1.process).1.drainPoll 11).drainPoll 12, p.2 && (p.1.process).2.2.2)

/-- The tree state after the initial polls and five ticks at limit 130,
just before the limit is lowered. -/
def c10BeforeLimitChange : Limiter × Bool :=
  c10Tick (c10Tick (c10Tick (c10Tick (c10Tick ((c10Attached.pollAt 11).pollAt 12, true)))))

/-- The carry recurrence exactly as claim C1 words it:
carry' = carry + L; my_limit = carry' / W; carry = carry' mod W;
merged = min(my_limit, parent_limit) / frequency; and then carry increases
by (merged mod frequency) * W.  (Spec-side definition, for comparison with
the source embedding `Limiter.add_tokens`.) -/
def claimedCarryC1 (carry L W parent_limit : Nat) : Nat :=
  (carry + L) % W + min ((carry + L) / W) parent_limit / frequency % frequency * W

/-- A limiter with finite own limit 7 and weight 1 (one attached bucket),
zero carry. -/
def c1Limiter : Limiter := { limit_ := 7, weight_ := 1, buckets_ := [{}] }

/-- A limiter state used to witness the amended carry recurrence. -/
def c1Witness : Limiter := { limit_ := 7, weight_ := 2, carry_ := 1 }

/-- A waiting, unsaturated bucket with an empty 5-byte budget. -/
def c2Bucket : Bucket :=
  { available_ := 0, bucket_size_ := 5, waiting_ := true, unsaturated_ := true }

/-- A limiter holding 4 tokens of internal overflow whose only child, the
unsaturated `c2Bucket`, sits in the scratch buffer. -/
def c2Limiter : Limiter :=
  { overflow_ := 4, buckets_ := [c2Bucket], scratch_buffer_ := [0] }

/-- The per-direction bucket invariant of claim C3:
`available_[d] ≤ bucket_size_[d]` (the lower bound 0 is inherent in the
unsigned type) and the overflow multiplier is a power of two between
2^0 = 1 and 2^20 (the code only ever doubles below 2^20 = 1024·1024,
halves above 1, or resets to 1, so being a power of two is part of the
invariant that makes the [1, 2^20] range stable). -/
def BucketInv (b : Bucket) : Prop :=
  b.available_ ≤ b.bucket_size_ ∧ ∃ k, k ≤ 20 ∧ b.overflow_multiplier_ = 2 ^ k

/-- A small in-invariant bucket used by witnesses. -/
def c3Bucket : Bucket := { available_ := 3, bucket_size_ := 5 }

/-- A limiter with merged tokens 10, debt 7 and weight 3. -/
def c6Limiter : Limiter := { merged_tokens_ := 10, debt_ := 7, weight_ := 3 }

/-- A bucket holding a 10-byte budget, attached to a manager. -/
def c9Bucket : Bucket := { available_ := 10, bucket_size_ := 20 }

/-! ## Theorems -/

/-- C10: the claimed safety property fails and the code is wrong: from a
state reached purely through the public interface (attach 13 buckets to a
limiter with download limit 130, let two greedy consumers drain buckets 11
and 12 across five ticks while buckets 0-10 fill up, then lower the limit
to 65), the next refill tick executes the division `remaining / size` of
`rate_limiter::distribute_overflow` (rate_limiter.cpp line 394) with
`size == 0`, `remaining == 1` and a non-empty `scratch_buffer_` — undefined
behaviour in the C++ (the `divZero` flag of the embedding records exactly
that event).  Both scratch buckets had cleared their `unsaturated_` flag
after absorbing their doubled share fully, yet remained in
`scratch_buffer_`. -/
theorem distribute_overflow_division_by_zero :
    c10BeforeLimitChange.2 = true ∧
    ((c10BeforeLimitChange.1.set_limit 65).process).2.2.1 = true ∧
    ((c10BeforeLimitChange.1.set_limit 65).process).1.scratch_buffer_ = [11, 12] ∧
    c10BeforeLimitChange.1.buckets_.length = 13 := by
  decide

/-- C1 counterexample: with carry 0, own limit L = 7, weight W = 1 and an
unlimited parent limit, the code leaves carry = (7 mod 5) * 1 = 2
(rate_limiter.cpp line 310 adds `(merged_limit % frequency) * weight_`
before dividing by frequency), while the claim's recurrence
(`carry += (merged mod frequency) * W` with `merged = min(my_limit,
parent_limit) / frequency = 1`) yields carry = 1. -/
theorem carry_recurrence_counterexample :
    (Limiter.add_tokens c1Limiter unlimited unlimited).2.carry_ = 2 ∧
    claimedCarryC1 c1Limiter.carry_ c1Limiter.limit_ c1Limiter.weight_ unlimited = 1 := by
  decide

/-- C1 amended: for every limiter with a finite own limit L and nonzero
weight W, one refill step of add_tokens updates the carry accumulator per
carry' = carry + L; my_limit = carry' / W; carry = carry' mod W; and then
carry increases by ((min(my_limit, parent_limit)) mod frequency) * W — the
sub-tick remainder of the merged limit before the division by frequency —
while merged_tokens becomes min(tokens, min(my_limit, parent_limit) /
frequency) (when the merged limit is finite and no debt is pending). -/
theorem carry_recurrence_amended (L : Limiter) (tokens limit : Nat)
    (hw : L.weight_ ≠ 0) (hl : L.limit_ ≠ unlimited) :
    (Limiter.add_tokens L tokens limit).2.carry_ =
      (L.carry_ + L.limit_) % L.weight_ +
        min ((L.carry_ + L.limit_) / L.weight_) limit % frequency * L.weight_ ∧
    (L.debt_ = 0 → min ((L.carry_ + L.limit_) / L.weight_) limit ≠ unlimited →
      (Limiter.add_tokens L tokens limit).2.merged_tokens_ =
        min tokens (min ((L.carry_ + L.limit_) / L.weight_) limit / frequency)) := by
  unfold Limiter.add_tokens
  rw [if_neg hw]
  simp only [if_pos hl, ne_eq]
  constructor
  · unfold Limiter.pay_debt
    split_ifs <;> rfl
  · intro hdebt hml
    unfold Limiter.pay_debt
    simp only [hdebt, hml, not_false_eq_true, if_true, ne_eq, Nat.zero_div, Nat.min_zero,
      Nat.sub_zero]
    split_ifs <;> simp <;> omega

/-- Witness for the amended C1 recurrence at a concrete limiter (carry 1,
limit 7, weight 2, no debt), tokens 3 under parent limit 5:
carry becomes (1+7) mod 2 + (min(4,5) mod 5)·2 = 8 and merged_tokens
min(3, 4/5) = 0. -/
theorem carry_recurrence_amended_witness :
    c1Witness.weight_ ≠ 0 ∧ c1Witness.limit_ ≠ unlimited ∧ c1Witness.debt_ = 0 ∧
    (Limiter.add_tokens c1Witness 3 5).2.carry_ = 8 ∧
    (Limiter.add_tokens c1Witness 3 5).2.merged_tokens_ = 0 :=
  ⟨by decide, by decide, by decide,
   ((carry_recurrence_amended c1Witness 3 5 (by decide) (by decide)).1).trans (by decide),
   (((carry_recurrence_amended c1Witness 3 5 (by decide) (by decide)).2
      (by decide) (by decide))).trans (by decide)⟩

/-- C2 counterexample: in the state `c2Limiter` (overflow 4, one unsaturated
child with capacity 5 at index 0), the child absorbs its full share of 4
tokens (returning 0 overflow) yet remains in the scratch set afterwards:
the code removes the children that FAIL to absorb their share
(rate_limiter.cpp lines 398-402), not the ones that absorb it fully as the
claim states. -/
theorem overflow_redistribution_counterexample :
    (Bucket.distribute_overflow c2Bucket 4).1 = 0 ∧
    (Bucket.distribute_overflow c2Bucket 4).2.available_ = 4 ∧
    (Limiter.distribute_overflow c2Limiter 0).2.1.scratch_buffer_ = [0] ∧
    (Limiter.distribute_overflow c2Limiter 0).2.2.2 = true := by
  decide

/-- C2 amended: the accumulated overflow (plus the usable part of the
external overflow) is iteratively divided by the count of unsaturated
children, each scratch entry being handed the share `remaining / size`
(remainder kept); a child that does NOT absorb its share fully is
swap-removed from the scratch set and its leftover added back to
`remaining`, while a child that absorbs its share fully stays; the loop
repeats until the overflow is exhausted, no scratch entry remains, or the
share rounds to zero; overflow this subtree could not absorb is returned
upward to the parent. -/
theorem overflow_redistribution_amended :
    (∀ (buckets : List Bucket) (extra : Nat) (scratch : List Nat) (i remaining : Nat)
        (h : i < scratch.length),
      ((buckets.getD (scratch.get ⟨i, h⟩) default).distribute_overflow extra).1 = 0 →
        innerPass buckets extra scratch i remaining =
          innerPass
            (buckets.set (scratch.get ⟨i, h⟩)
              ((buckets.getD (scratch.get ⟨i, h⟩) default).distribute_overflow extra).2)
            extra scratch (i + 1) remaining) ∧
    (∀ (buckets : List Bucket) (extra : Nat) (scratch : List Nat) (i remaining : Nat)
        (h : i < scratch.length),
      ((buckets.getD (scratch.get ⟨i, h⟩) default).distribute_overflow extra).1 ≠ 0 →
        innerPass buckets extra scratch i remaining =
          innerPass
            (buckets.set (scratch.get ⟨i, h⟩)
              ((buckets.getD (scratch.get ⟨i, h⟩) default).distribute_overflow extra).2)
            extra ((scratch.set i (scratch.getD (scratch.length - 1) 0)).dropLast) i
            (remaining +
              ((buckets.getD (scratch.get ⟨i, h⟩) default).distribute_overflow extra).1)) ∧
    (∀ (n : Nat) (buckets : List Bucket) (scratch : List Nat) (remaining : Nat)
        (divZero : Bool), remaining = 0 ∨ scratch = [] →
      outerLoop (n + 1) buckets scratch remaining divZero =
        (((buckets, scratch, remaining), scratchUnsat buckets scratch, divZero), true)) ∧
    (∀ (n : Nat) (buckets : List Bucket) (scratch : List Nat) (remaining : Nat)
        (divZero : Bool), ¬(remaining = 0 ∨ scratch = []) →
      remaining / scratchUnsat buckets scratch ≠ 0 →
      outerLoop (n + 1) buckets scratch remaining divZero =
        outerLoop n
          (innerPass buckets (remaining / scratchUnsat buckets scratch) scratch 0
            (remaining % scratchUnsat buckets scratch)).1
          (innerPass buckets (remaining / scratchUnsat buckets scratch) scratch 0
            (remaining % scratchUnsat buckets scratch)).2.1
          (innerPass buckets (remaining / scratchUnsat buckets scratch) scratch 0
            (remaining % scratchUnsat buckets scratch)).2.2
          (divZero || decide (scratchUnsat buckets scratch = 0))) ∧
    (∀ (n : Nat) (buckets : List Bucket) (scratch : List Nat) (remaining : Nat)
        (divZero : Bool), ¬(remaining = 0 ∨ scratch = []) →
      remaining / scratchUnsat buckets scratch = 0 →
      outerLoop (n + 1) buckets scratch remaining divZero =
        ((innerPass buckets (remaining / scratchUnsat buckets scratch) scratch 0
            (remaining % scratchUnsat buckets scratch),
          scratchUnsat buckets scratch,
          divZero || decide (scratchUnsat buckets scratch = 0)), true)) ∧
    (∀ (L : Limiter) (overflow u rem : Nat),
      u = (if L.unused_capacity_ = unlimited then overflow
           else min overflow L.unused_capacity_) →
      rem = (outerLoop (L.overflow_ + u + L.scratch_buffer_.length + 2) L.buckets_
          L.scratch_buffer_ (L.overflow_ + u) false).1.1.2.2 →
      (u > rem →
        (Limiter.distribute_overflow L overflow).1 = rem + overflow - u ∧
        (Limiter.distribute_overflow L overflow).2.1.overflow_ = 0 ∧
        (Limiter.distribute_overflow L overflow).2.1.unused_capacity_ =
          L.unused_capacity_ - (u - rem)) ∧
      (u ≤ rem →
        (Limiter.distribute_overflow L overflow).1 = overflow ∧
        (Limiter.distribute_overflow L overflow).2.1.overflow_ = rem - u)) := by
  refine ⟨?_, ?_, ?_, ?_, ?_, ?_⟩
  · intro buckets extra scratch i remaining h hret
    unfold innerPass
    obtain ⟨m, hm⟩ : ∃ m, scratch.length - i = m + 1 := ⟨scratch.length - i - 1, by omega⟩
    rw [hm]
    have hm2 : scratch.length - (i + 1) = m := by omega
    rw [hm2]
    simp only [innerPassAux, dif_pos h]
    rw [if_neg (by simpa using hret)]
  · intro buckets extra scratch i remaining h hret
    unfold innerPass
    obtain ⟨m, hm⟩ : ∃ m, scratch.length - i = m + 1 := ⟨scratch.length - i - 1, by omega⟩
    rw [hm]
    have hm2 : ((scratch.set i (scratch.getD (scratch.length - 1) 0)).dropLast).length - i
        = m := by
      simp only [List.length_dropLast, List.length_set]
      omega
    rw [hm2]
    simp only [innerPassAux, dif_pos h]
    rw [if_pos hret]
  · intro n buckets scratch remaining divZero hexit
    simp only [outerLoop, if_pos hexit]
  · intro n buckets scratch remaining divZero hexit hextra
    simp only [outerLoop, if_neg hexit]
    rw [if_neg hextra]
  · intro n buckets scratch remaining divZero hexit hextra
    simp only [outerLoop, if_neg hexit]
    rw [if_pos hextra]
  · intro L overflow u rem hu hrem
    subst hu
    subst hrem
    unfold Limiter.distribute_overflow
    constructor
    · intro hgt
      rw [if_pos hgt]
      exact ⟨rfl, rfl, rfl⟩
    · intro hle
      rw [if_neg (by omega)]
      exact ⟨rfl, rfl⟩

/-- Witness for the amended C2 description: a child with capacity 5 handed
3 tokens absorbs them fully, stays in the scratch set and the pass advances
(first conjunct of the theorem applied at a concrete state); a loop with
its overflow exhausted exits at once; a limiter whose internal overflow is
not exhausted returns the external overflow unchanged. -/
theorem overflow_redistribution_amended_witness :
    ((Bucket.distribute_overflow c2Bucket 3).1 = 0 ∧
      innerPass [c2Bucket] 3 [0] 0 7 =
        innerPass [(Bucket.distribute_overflow c2Bucket 3).2] 3 [0] 1 7) ∧
    outerLoop 5 [c2Bucket] [0] 0 false = ((([c2Bucket], [0], 0), 1, false), true) ∧
    (Limiter.distribute_overflow c2Limiter 0).1 = 0 := by
  refine ⟨⟨by decide, ?_⟩, ?_, ?_⟩
  · exact overflow_redistribution_amended.1 [c2Bucket] 3 [0] 0 7 (by decide) (by decide)
  · exact (overflow_redistribution_amended.2.2.1 4 [c2Bucket] [0] 0 false
      (Or.inl rfl)).trans (by decide)
  · exact ((overflow_redistribution_amended.2.2.2.2.2 c2Limiter 0 0 0 (by decide)
      (by decide)).2 (by decide)).1

/-- C3: for a direction with a finite limit, every bucket operation
preserves `0 ≤ available_[d] ≤ bucket_size_[d]` with the multiplier a power
of two in [1, 2^20]; `add_tokens` re-establishes
`bucket_size_[d] = limit × overflow_multiplier_[d]`; the multiplier doubles
exactly when demand exceeds capacity (`capacity < tokens` with the bucket
unsaturated and the multiplier below 2^20 = 1024·1024) and halves in
`update_stats` exactly when `available_[d]` exceeds half the bucket size
(with the multiplier above 1).  The `tokens ≤ limit` hypothesis reflects
the only call sites (rate_limiter.cpp lines 344, 255: tokens =
merged_tokens ≤ merged_limit = limit). -/
theorem bucket_invariant :
    (∀ b : Bucket, BucketInv b →
      1 ≤ b.overflow_multiplier_ ∧ b.overflow_multiplier_ ≤ 2 ^ 20) ∧
    (∀ (b : Bucket) (tokens limit : Nat), BucketInv b → tokens ≤ limit →
      BucketInv (Bucket.add_tokens b tokens limit).2) ∧
    (∀ (b : Bucket) (tokens limit : Nat), limit ≠ unlimited →
      (Bucket.add_tokens b tokens limit).2.bucket_size_ =
        limit * (Bucket.add_tokens b tokens limit).2.overflow_multiplier_) ∧
    (∀ (b : Bucket) (tokens : Nat), BucketInv b →
      BucketInv (Bucket.distribute_overflow b tokens).2) ∧
    (∀ (b : Bucket) (amount : Nat), BucketInv b → BucketInv (Bucket.consume b amount).1) ∧
    (∀ (b : Bucket) (active : Bool), BucketInv b → BucketInv (Bucket.update_stats b active).1) ∧
    (∀ (b : Bucket) (tokens limit : Nat), limit ≠ unlimited → b.available_ ≠ unlimited →
      ¬(limit * b.overflow_multiplier_ < b.available_) →
      (Bucket.add_tokens b tokens limit).2.overflow_multiplier_ =
        (if limit * b.overflow_multiplier_ - b.available_ < tokens ∧ b.unsaturated_ = true then
          (if b.overflow_multiplier_ < 2 ^ 20 then b.overflow_multiplier_ * 2
           else b.overflow_multiplier_)
         else b.overflow_multiplier_)) ∧
    (∀ (b : Bucket) (active : Bool), b.bucket_size_ ≠ unlimited →
      (Bucket.update_stats b active).1.overflow_multiplier_ =
        (if b.bucket_size_ / 2 < b.available_ ∧ 1 < b.overflow_multiplier_ then
          b.overflow_multiplier_ / 2
         else b.overflow_multiplier_)) := by
  have hpow : ∀ k : Nat, 2 ^ k < 2 ^ 20 → k < 20 := by
    intro k hk
    by_contra hge
    exact absurd (Nat.pow_le_pow_right (by norm_num) (by omega) :
      (2:Nat) ^ 20 ≤ 2 ^ k) (by omega)
  have hmega : (1024 * 1024 : Nat) = 2 ^ 20 := by norm_num
  refine ⟨?_, ?_, ?_, ?_, ?_, ?_, ?_, ?_⟩
  · rintro b ⟨-, k, hk, hmul⟩
    constructor
    · rw [hmul]; exact Nat.one_le_two_pow
    · rw [hmul]; exact Nat.pow_le_pow_right (by norm_num) hk
  · rintro b tokens limit ⟨hab, k, hk, hmul⟩ htl
    have hmpos : 1 ≤ b.overflow_multiplier_ := by rw [hmul]; exact Nat.one_le_two_pow
    unfold Bucket.add_tokens
    dsimp only
    split_ifs with h1 h2 h3 h4 h5
    · exact ⟨le_refl _, k, hk, hmul⟩
    · refine ⟨?_, k, hk, hmul⟩
      calc tokens ≤ limit := htl
        _ ≤ limit * b.overflow_multiplier_ := Nat.le_mul_of_pos_right _ (by omega)
    · exact ⟨le_refl _, k, hk, hmul⟩
    · refine ⟨?_, k + 1, ?_, ?_⟩
      · simp only
        omega
      · have := hpow k (by rw [← hmul, ← hmega]; exact h5)
        omega
      · simp only
        rw [hmul, pow_succ]
    · refine ⟨?_, k, hk, hmul⟩
      simp only
      omega
    · refine ⟨?_, k, hk, hmul⟩
      simp only
      omega
  · intro b tokens limit hlim
    unfold Bucket.add_tokens
    rw [if_neg hlim]
    dsimp only
    split_ifs <;> first
      | rfl
      | (simp only; ring)
  · rintro b tokens ⟨hab, k, hk, hmul⟩
    unfold Bucket.distribute_overflow
    dsimp only
    split_ifs with h1 h2 h3
    · exact ⟨hab, k, hk, hmul⟩
    · refine ⟨?_, k + 1, ?_, ?_⟩
      · simp only
        omega
      · have := hpow k (by rw [← hmul, ← hmega]; exact h3)
        omega
      · simp only
        rw [hmul, pow_succ]
    · refine ⟨?_, k, hk, hmul⟩
      simp only
      omega
    · refine ⟨?_, k, hk, hmul⟩
      simp only
      omega
  · rintro b amount ⟨hab, k, hk, hmul⟩
    unfold Bucket.consume
    split_ifs <;> exact ⟨by simp only; omega, k, hk, hmul⟩
  · rintro b active ⟨hab, k, hk, hmul⟩
    unfold Bucket.update_stats
    split_ifs with h1 h2
    · exact ⟨hab, 0, by omega, rfl⟩
    · refine ⟨hab, k - 1, by omega, ?_⟩
      simp only
      have hk1 : 1 ≤ k := by
        by_contra hz
        rw [hmul, show k = 0 by omega] at h2
        omega
      have : (2:Nat) ^ k = 2 ^ (k - 1) * 2 := by
        rw [← pow_succ]
        congr 1
        omega
      rw [hmul, this, Nat.mul_div_cancel _ (by norm_num)]
    · exact ⟨hab, k, hk, hmul⟩
  · intro b tokens limit h1 h2 h3
    unfold Bucket.add_tokens
    dsimp only
    rw [if_neg h1, if_neg h2, if_neg h3, hmega]
    split_ifs <;> rfl
  · intro b active hbs
    unfold Bucket.update_stats
    rw [if_neg hbs]
    split_ifs <;> rfl

/-- Witness for C3 at a concrete bucket (available 3, size 5, multiplier 1):
the invariant holds before and after `add_tokens 2 5`, `consume 4` and
`update_stats`. -/
theorem bucket_invariant_witness :
    BucketInv c3Bucket ∧
    BucketInv (Bucket.add_tokens c3Bucket 2 5).2 ∧
    BucketInv (Bucket.consume c3Bucket 4).1 ∧
    BucketInv (Bucket.update_stats c3Bucket false).1 :=
  have hInv : BucketInv c3Bucket := ⟨by decide, 0, by omega, by decide⟩
  ⟨hInv,
   bucket_invariant.2.1 c3Bucket 2 5 hInv (by decide),
   bucket_invariant.2.2.2.2.1 c3Bucket 4 hInv,
   bucket_invariant.2.2.2.2.2.1 c3Bucket false hInv⟩

/-- C4: the manager's activity handshake.  `activity` starts dormant at 2
with no timer armed; `record_activity` sets activity to 0 and newly arms a
timer exactly when the prior value was 2; each tick increments activity and
stops the timer on reaching 2; these rules preserve the reachable-state
invariant; and along any run without intervening activity at most
`2 - activity` ticks can fire — in particular, from the dormant state no
timer fires at all (no wakeups during idleness). -/
theorem activity_handshake :
    MgrSt.init = ⟨2, false⟩ ∧
    (∀ s : MgrSt, (MgrSt.record_activity s).activity = 0) ∧
    (∀ s : MgrSt, MgrInv s →
      (((MgrSt.record_activity s).timer_armed = true ∧ s.timer_armed = false) ↔
        s.activity = 2)) ∧
    (∀ s : MgrSt, (MgrSt.on_timer s).activity = s.activity + 1 ∧
      (s.activity + 1 = 2 → (MgrSt.on_timer s).timer_armed = false)) ∧
    MgrInv MgrSt.init ∧
    (∀ (s : MgrSt) (e : MgrEvent) (s' : MgrSt), MgrStep s e s' → MgrInv s → MgrInv s') ∧
    (∀ (s : MgrSt) (evs : List MgrEvent), MgrTrace s evs → MgrInv s →
      MgrEvent.activityEv ∉ evs → evs.count MgrEvent.tick + s.activity ≤ 2) := by
  have hpres : ∀ (s : MgrSt) (e : MgrEvent) (s' : MgrSt),
      MgrStep s e s' → MgrInv s → MgrInv s' := by
    intro s e s' hstep hInv
    cases e with
    | tick =>
      simp only [MgrStep] at hstep
      obtain ⟨harm, rfl⟩ := hstep
      have hne : s.activity ≠ 2 := by
        intro h2
        rw [hInv.2 h2] at harm
        exact Bool.false_ne_true harm
      refine ⟨?_, ?_⟩
      · simp only [MgrSt.on_timer]
        have := hInv.1
        omega
      · intro h2
        simp only [MgrSt.on_timer] at h2 ⊢
        rw [if_pos h2]
    | activityEv =>
      simp only [MgrStep] at hstep
      subst hstep
      refine ⟨?_, ?_⟩
      · simp [MgrSt.record_activity]
      · intro h2
        simp [MgrSt.record_activity] at h2
  refine ⟨rfl, fun s => rfl, ?_, ?_, ⟨by decide, fun _ => rfl⟩, hpres, ?_⟩
  · intro s hInv
    unfold MgrSt.record_activity
    dsimp only
    constructor
    · rintro ⟨harm, hoff⟩
      by_contra hne
      rw [if_neg hne] at harm
      rw [harm] at hoff
      simp at hoff
    · intro h2
      exact ⟨by rw [if_pos h2], hInv.2 h2⟩
  · intro s
    exact ⟨rfl, fun h2 => by simp only [MgrSt.on_timer]; rw [if_pos h2]⟩
  · intro s evs htr
    induction htr with
    | nil s =>
      intro hInv _
      simpa using hInv.1
    | cons hstep htail ih =>
      rename_i s s' e evs
      intro hInv hnot
      cases e with
      | tick =>
        have harm := hstep
        simp only [MgrStep] at harm
        have hInv' := hpres _ _ _ hstep hInv
        have hne : s.activity ≠ 2 := by
          intro h2
          rw [hInv.2 h2] at harm
          exact Bool.false_ne_true harm.1
        have hcount := ih hInv' (by
          intro hmem
          exact hnot (List.mem_cons_of_mem _ hmem))
        rw [harm.2] at hcount
        simp only [MgrSt.on_timer] at hcount
        simp only [List.count_cons_self]
        have h1 := hInv.1
        omega
      | activityEv =>
        exact absurd (List.mem_cons_self _ _) hnot

/-- Witness for C4: from the just-recorded state (activity 0, timer armed),
two idle ticks are possible in total. -/
theorem activity_handshake_witness :
    MgrInv ⟨0, true⟩ ∧ MgrEvent.activityEv ∉ [MgrEvent.tick, MgrEvent.tick] ∧
    ([MgrEvent.tick, MgrEvent.tick].count MgrEvent.tick + (⟨0, true⟩ : MgrSt).activity ≤ 2) :=
  have hInv : MgrInv ⟨0, true⟩ := ⟨by decide, fun h => by simp at h⟩
  have htr : MgrTrace ⟨0, true⟩ [MgrEvent.tick, MgrEvent.tick] :=
    MgrTrace.cons ⟨rfl, rfl⟩ (MgrTrace.cons ⟨rfl, rfl⟩ (MgrTrace.nil _))
  ⟨hInv, by decide,
   activity_handshake.2.2.2.2.2.2 ⟨0, true⟩ [MgrEvent.tick, MgrEvent.tick] htr hInv
     (by decide)⟩

/-- C5: `rate_limited_layer::read` with a zero budget returns −1 with
EAGAIN, marks the bucket waiting and does not call the next layer;
otherwise it truncates the size to min(size, available), forwards the next
layer's return value and error unchanged (the limiter raises no error of
its own), and on a positive transfer the transferred count is consumed
from the bucket (a no-op when the budget is unlimited, exactly as
`bucket::consume` behaves). -/
theorem rate_limited_read :
    (∀ (b : Bucket) (size : Nat) (next_read : Nat → Int × Int), b.available_ = 0 →
      rate_limited_layer.read b size next_read =
        (-1, EAGAIN, { b with waiting_ := true }, false)) ∧
    (∀ (b : Bucket) (size : Nat) (next_read : Nat → Int × Int), b.available_ ≠ 0 →
      (rate_limited_layer.read b size next_read).1 = (next_read (min b.available_ size)).1 ∧
      (rate_limited_layer.read b size next_read).2.1 = (next_read (min b.available_ size)).2 ∧
      (rate_limited_layer.read b size next_read).2.2.2 = true ∧
      (0 < (next_read (min b.available_ size)).1 →
        (rate_limited_layer.read b size next_read).2.2.1 =
          (Bucket.consume b (next_read (min b.available_ size)).1.toNat).1) ∧
      ((next_read (min b.available_ size)).1 ≤ 0 →
        (rate_limited_layer.read b size next_read).2.2.1 = b)) := by
  constructor
  · intro b size nr h0
    simp [rate_limited_layer.read, Bucket.availableOp, h0]
  · intro b size nr hne
    have hms : (if b.available_ < size then b.available_ else size) = min b.available_ size := by
      split_ifs <;> omega
    unfold rate_limited_layer.read Bucket.availableOp
    rw [if_neg hne]
    dsimp only
    rw [if_neg hne, hms]
    split_ifs with hc
    · refine ⟨rfl, rfl, rfl, fun _ => rfl, fun hle => ?_⟩
      exact absurd hc.1 (by omega)
    · refine ⟨rfl, rfl, rfl, ?_, fun _ => rfl⟩
      intro hpos
      have hunl : b.available_ = unlimited := by
        by_contra hu
        exact hc ⟨hpos, hu⟩
      have htn : (nr (min b.available_ size)).1.toNat ≠ 0 := by omega
      unfold Bucket.consume
      rw [if_neg htn, if_pos hunl]

/-- Witness for C5 at a bucket with budget 5 and a next layer delivering
3 bytes: the read succeeds with 3 and consumes them. -/
theorem rate_limited_read_witness :
    c3Bucket.available_ ≠ 0 ∧
    (rate_limited_layer.read c3Bucket 7 (fun _ => (3, 0))).1 = 3 ∧
    (rate_limited_layer.read c3Bucket 7 (fun _ => (3, 0))).2.2.1.available_ = 0 :=
  have h := rate_limited_read.2 c3Bucket 7 (fun _ => (3, 0)) (by decide)
  ⟨by decide, h.1.trans (by decide), by
    rw [h.2.2.2.1 (by decide)]
    decide⟩

/-- C6: attaching a bucket mid-tick with finite merged tokens grants it
`merged_tokens_[d] / (2·weight)` tokens per weight unit and increases
`debt_[d]` by exactly that grant times the bucket's weight (1 for a leaf);
`pay_debt` then reduces `merged_tokens_[d]` and `debt_[d]` by exactly
`min(merged_tokens_[d], debt_[d] / weight)`. -/
theorem debt_tracking :
    (∀ (L : Limiter) (b : Bucket), L.merged_tokens_ < unlimited →
      (Limiter.add L b).1.debt_ = L.debt_ + L.merged_tokens_ / (1 * 2) * 1) ∧
    (∀ L : Limiter, L.merged_tokens_ ≠ unlimited → L.weight_ ≠ 0 →
      (Limiter.pay_debt L).merged_tokens_ =
        L.merged_tokens_ - min L.merged_tokens_ (L.debt_ / L.weight_) ∧
      (Limiter.pay_debt L).debt_ =
        L.debt_ - min L.merged_tokens_ (L.debt_ / L.weight_)) := by
  constructor
  · intro L b hlt
    have htok : L.merged_tokens_ / (1 * 2) ≠ unlimited :=
      Nat.ne_of_lt (lt_of_le_of_lt (Nat.div_le_self _ _) hlt)
    unfold Limiter.add
    dsimp only
    rw [if_neg (Nat.ne_of_lt hlt), if_pos htok]
  · intro L hmt hw
    unfold Limiter.pay_debt
    rw [if_pos hmt]
    dsimp only
    rw [if_neg hw]
    exact ⟨rfl, rfl⟩

/-- Witness for C6: a limiter with merged tokens 10, debt 7, weight 3 —
attaching a bucket adds 10/2 = 5 to the debt; paying the debt removes
min(10, 7/3) = 2 from both merged tokens and debt. -/
theorem debt_tracking_witness :
    c6Limiter.merged_tokens_ < unlimited ∧ c6Limiter.weight_ ≠ 0 ∧
    (Limiter.add c6Limiter {}).1.debt_ = 12 ∧
    (Limiter.pay_debt c6Limiter).merged_tokens_ = 8 ∧
    (Limiter.pay_debt c6Limiter).debt_ = 5 :=
  have h1 := debt_tracking.1 c6Limiter {} (by decide)
  have h2 := debt_tracking.2 c6Limiter (by decide) (by decide)
  ⟨by decide, by decide, h1.trans (by decide), h2.1.trans (by decide),
   h2.2.trans (by decide)⟩

/-- C7: `socket::connect` fails with EISCONN when the state is not `none`,
with EINVAL on a port outside 1-65535 or an empty host — in each case
leaving the state unchanged and never reaching the reactor; otherwise it
stores host, port and family, delegates to the reactor thread and, when the
reactor accepts, returns 0 in state `connecting`. -/
theorem socket_connect_validation :
    (∀ (st : SocketState) (host : String) (port : Nat) (family : AddressType)
        (tres : Int), st ≠ SocketState.none →
      socket.connect st host port family tres =
        ⟨EISCONN, st, false, Option.none, Option.none, Option.none⟩) ∧
    (∀ (host : String) (port : Nat) (family : AddressType) (tres : Int),
        port < 1 ∨ port > 65535 →
      socket.connect SocketState.none host port family tres =
        ⟨EINVAL, SocketState.none, false, Option.none, Option.none, Option.none⟩) ∧
    (∀ (port : Nat) (family : AddressType) (tres : Int), 1 ≤ port → port ≤ 65535 →
      socket.connect SocketState.none "" port family tres =
        ⟨EINVAL, SocketState.none, false, Option.none, Option.none, Option.none⟩) ∧
    (∀ (host : String) (port : Nat) (family : AddressType) (tres : Int),
        host ≠ "" → 1 ≤ port → port ≤ 65535 →
      (socket.connect SocketState.none host port family tres).delegated = true ∧
      (socket.connect SocketState.none host port family tres).stored_host = some host ∧
      (socket.connect SocketState.none host port family tres).stored_port = some port ∧
      (socket.connect SocketState.none host port family tres).stored_family = some family ∧
      (tres = 0 →
        socket.connect SocketState.none host port family tres =
          ⟨0, SocketState.connecting, true, some host, some port, some family⟩)) := by
  refine ⟨?_, ?_, ?_, ?_⟩
  · intro st host port family tres hst
    unfold socket.connect
    rw [if_pos hst]
  · intro host port family tres hport
    unfold socket.connect
    rw [if_neg (by simp), if_pos hport]
  · intro port family tres h1 h2
    unfold socket.connect
    rw [if_neg (by simp), if_neg (by omega), if_pos rfl]
  · intro host port family tres hhost h1 h2
    unfold socket.connect
    rw [if_neg (by simp), if_neg (by omega), if_neg hhost]
    split_ifs with ht
    · exact ⟨rfl, rfl, rfl, rfl, fun h0 => absurd h0 ht⟩
    · exact ⟨rfl, rfl, rfl, rfl, fun _ => rfl⟩

/-- Witness for C7: connecting from state `none` to "host":21 succeeds when
the reactor accepts. -/
theorem socket_connect_validation_witness :
    (("host" : String) ≠ "") ∧
    socket.connect SocketState.none "host" 21 AddressType.unknown 0 =
      ⟨0, SocketState.connecting, true, some "host", some 21, some AddressType.unknown⟩ :=
  ⟨by decide,
   (socket_connect_validation.2.2.2 "host" 21 AddressType.unknown 0 (by decide)
     (by omega) (by omega)).2.2.2.2 rfl⟩

/-- C8: a successful OS half-close makes `socket::shutdown` return 0, move
`connected` to `shut_down` (other states unchanged) and clear the
WAIT_WRITE bits of `waiting_` and `triggered_`; afterwards
`retrigger(write)` on a shut-down socket delivers nothing, while
`retrigger(read)` on a shut-down socket with a handler, no pending read
event and a clear read wait bit delivers a synthetic read event. -/
theorem shutdown_retrigger :
    (∀ s : SockTh, socket.shutdown s 0 =
      (0, { s with
              state := if s.state = SocketState.connected then SocketState.shut_down
                       else s.state,
              wait_write := false, trig_write := false })) ∧
    (∀ s : SockTh, s.state = SocketState.connected →
      (socket.shutdown s 0).2.state = SocketState.shut_down) ∧
    (∀ (s : SockTh) (has_handler pending : Bool), s.state = SocketState.shut_down →
      socket.retrigger s EvFlag.write has_handler pending = false) ∧
    (∀ s : SockTh, s.state = SocketState.shut_down → s.wait_read = false →
      socket.retrigger s EvFlag.read true false = true) := by
  refine ⟨?_, ?_, ?_, ?_⟩
  · intro s
    unfold socket.shutdown
    rw [if_neg (by omega)]
  · intro s hst
    unfold socket.shutdown
    rw [if_neg (by omega)]
    dsimp only
    rw [if_pos hst]
  · intro s hh hp hst
    unfold socket.retrigger
    rw [if_neg (by simp), if_pos (by simp [hst])]
  · intro s hst hwr
    unfold socket.retrigger
    rw [if_neg (by simp), if_neg (by simp [hst]), if_neg (by simp), if_pos rfl, hwr]
    rfl

/-- Witness for C8: a connected socket with both wait bits armed is half
closed: state becomes `shut_down` with the write bits cleared, after which
`retrigger(write)` delivers nothing and `retrigger(read)` delivers a
synthetic event once the read bit is clear. -/
theorem shutdown_retrigger_witness :
    (socket.shutdown ⟨SocketState.connected, false, true, false, true⟩ 0).2 =
      ⟨SocketState.shut_down, false, false, false, false⟩ ∧
    socket.retrigger ⟨SocketState.shut_down, false, false, false, false⟩
      EvFlag.write true false = false ∧
    socket.retrigger ⟨SocketState.shut_down, false, false, false, false⟩
      EvFlag.read true false = true :=
  ⟨by rw [shutdown_retrigger.1 ⟨SocketState.connected, false, true, false, true⟩]; decide,
   shutdown_retrigger.2.2.1 ⟨SocketState.shut_down, false, false, false, false⟩
     true false rfl,
   shutdown_retrigger.2.2.2 ⟨SocketState.shut_down, false, false, false, false⟩ rfl rfl⟩

/-- C9 counterexample: `bucket::consume(d, 0)` returns at once
(rate_limiter.cpp lines 551-553) without recording any activity with the
manager, contradicting the claim that every consume records activity. -/
theorem consume_available_counterexample :
    (Bucket.consume c9Bucket 0).2 = false ∧ (Bucket.consume c9Bucket 0).1 = c9Bucket := by
  decide

/-- C9 amended: for nonzero `amount` and a finite budget, `consume`
subtracts saturating at 0 and records activity exactly when a manager is
attached; `consume` with amount 0, or on an unlimited budget, is a no-op
that records nothing; `available` returns the budget and, when it is zero,
sets `waiting_[d]` and records activity exactly when a manager is
attached. -/
theorem consume_available_amended :
    (∀ (b : Bucket) (amount : Nat), amount ≠ 0 → b.available_ ≠ unlimited →
      (Bucket.consume b amount).1.available_ = b.available_ - amount ∧
      (Bucket.consume b amount).1.waiting_ = b.waiting_ ∧
      (Bucket.consume b amount).2 = b.mgr) ∧
    (∀ b : Bucket, Bucket.consume b 0 = (b, false)) ∧
    (∀ (b : Bucket) (amount : Nat), b.available_ = unlimited →
      Bucket.consume b amount = (b, false)) ∧
    (∀ b : Bucket, b.available_ = 0 →
      Bucket.availableOp b = (0, { b with waiting_ := true }, b.mgr)) ∧
    (∀ b : Bucket, b.available_ ≠ 0 →
      Bucket.availableOp b = (b.available_, b, false)) := by
  refine ⟨?_, ?_, ?_, ?_, ?_⟩
  · intro b amount ha hu
    unfold Bucket.consume
    rw [if_neg ha, if_neg hu]
    split_ifs with hlt
    · exact ⟨rfl, rfl, rfl⟩
    · exact ⟨by dsimp only; omega, rfl, rfl⟩
  · intro b
    unfold Bucket.consume
    rw [if_pos rfl]
  · intro b amount hu
    unfold Bucket.consume
    split_ifs with h0
    · rfl
    · rfl
  · intro b h0
    unfold Bucket.availableOp
    rw [if_pos h0]
  · intro b hne
    unfold Bucket.availableOp
    rw [if_neg hne]

/-- Witness for C9 as amended: consuming 4 of a 10-byte budget leaves 6 and
records activity; polling a zero budget marks the bucket waiting. -/
theorem consume_available_amended_witness :
    (Bucket.consume c9Bucket 4).1.available_ = 6 ∧
    (Bucket.consume c9Bucket 4).2 = true ∧
    Bucket.availableOp c2Bucket = (0, { c2Bucket with waiting_ := true }, true) :=
  have h := consume_available_amended.1 c9Bucket 4 (by decide) (by decide)
  ⟨h.1.trans (by decide), h.2.2.trans (by decide),
   (consume_available_amended.2.2.2.1 c2Bucket (by decide)).trans (by decide)⟩

end LibFZ
